import Mathlib

/-!
Shallow embedding of the `url-shortener` application (Hono + Cloudflare KV).

The repository contains two versions of the `POST /create` route:

* Variant A (`src/index.tsx`): a recursive key generator `createKey` with a
  collision-retry loop, guarded by `csrf()` and a zod form validator.
* Variant B (tutorial text): the handler looks up the submitted target URL as a
  store key, reuses the found value as the key when present, and otherwise
  generates a key and persists `key -> target`.  It has no CSRF middleware.

The key-value store is modelled as an association list together with a trace of
the store operations performed by a request, so that claims about "no store
interaction" are about the recorded operations, not just the final state.
JavaScript truthiness checks (`if (!result)`) are modelled by `falsy`, which is
true for `null` (here `Option.none`) and for the empty string.
-/

namespace UrlShortener

/-- A store state: string keys mapped to string values (Cloudflare KV). -/
abbrev Store := List (String × String)

/-- A single operation performed against the KV store. -/
inductive StoreOp where
  | get (key : String) (result : Option String)
  | put (key : String) (value : String)
deriving DecidableEq, Repr

/-- Tests whether a store operation is a write. -/
def StoreOp.isPut : StoreOp → Bool
  | .put _ _ => true
  | .get _ _ => false

/-- The KV store together with the trace of operations performed so far. -/
structure KVState where
  store : Store
  trace : List StoreOp
deriving DecidableEq, Repr

/-- Pure lookup in the association list (`KV.get` semantics: `string | null`). -/
def storeLookup : Store → String → Option String
  | [], _ => none
  | (k, v) :: rest, key => if k = key then some v else storeLookup rest key

/-- Pure write to the association list (`KV.put` semantics: overwrite). -/
def storePut : Store → String → String → Store
  | [], key, v => [(key, v)]
  | (k, w) :: rest, key, v =>
      if k = key then (k, v) :: rest else (k, w) :: storePut rest key v

/-- Embedding of `await kv.get(key)`: returns the value and records the read. -/
def kvGet (kv : KVState) (key : String) : Option String × KVState :=
  let r := storeLookup kv.store key
  (r, ⟨kv.store, kv.trace ++ [StoreOp.get key r]⟩)

/-- Embedding of `await kv.put(key, v)`: updates the store and records the write. -/
def kvPut (kv : KVState) (key v : String) : KVState :=
  ⟨storePut kv.store key v, kv.trace ++ [StoreOp.put key v]⟩

/-- JavaScript falsiness of a `string | null` value: `!result` is true exactly
for `null` and for the empty string. -/
def falsy : Option String → Bool
  | none => true
  | some s => s == ""

/-- Lower-case hexadecimal digit character for a value `0..15`. -/
def hexChar (d : Nat) : Char :=
  if d < 10 then Char.ofNat (48 + d) else Char.ofNat (87 + d)

/-- Fixed-width hexadecimal digit list, accumulated from the least
significant digit so that the most significant digit ends up first. -/
def hexDigitsAux : Nat → Nat → List Char → List Char
  | 0, _, acc => acc
  | w + 1, n, acc => hexDigitsAux w (n / 16) (hexChar (n % 16) :: acc)

/-- Fixed-width big-endian hexadecimal digit list of a natural number. -/
def hexDigits (w n : Nat) : List Char := hexDigitsAux w n []

/-- Character list of the canonical string form of a 128-bit identifier drawn
by `crypto.randomUUID()`: 32 hexadecimal digits in groups of 8-4-4-4-12
separated by hyphens.  The randomness is modelled by the 128-bit value `n`. -/
def uuidChars (n : Nat) : List Char :=
  let ds := hexDigits 32 (n % 2 ^ 128)
  ds.take 8 ++ ('-' :: ((ds.drop 8).take 4 ++ ('-' :: ((ds.drop 12).take 4
    ++ ('-' :: ((ds.drop 16).take 4 ++ ('-' :: ds.drop 20)))))))

/-- String form of the random identifier (`crypto.randomUUID()`). -/
def uuidString (n : Nat) : String := String.mk (uuidChars n)

/-- Embedding of `uuid.substring(0, 6)`: the first 6 characters of the
identifier string produced from the random draw `n`. -/
def candidateKey (n : Nat) : String := String.mk ((uuidChars n).take 6)

/-- Character class of the route matcher alphabet `[0-9a-z]`. -/
def isKeyChar (c : Char) : Bool :=
  ('0' ≤ c && c ≤ '9') || ('a' ≤ c && c ≤ 'z')

/-- Character class of the lower-case hexadecimal alphabet `[0-9a-f]`. -/
def isHexLowerChar (c : Char) : Bool :=
  ('0' ≤ c && c ≤ '9') || ('a' ≤ c && c ≤ 'f')

/-- Route pattern `[0-9a-z]{6}` of `GET /:key`. -/
def matchesKeyPattern (s : String) : Bool :=
  s.length == 6 && s.data.all isKeyChar

/-- Pages rendered by the application (markup content abstracted away). -/
inductive Page where
  | topForm
  | created (shortenUrl : String)
  | errorPage
deriving DecidableEq, Repr

/-- HTTP responses produced by the handlers. -/
inductive Response where
  | redirect (status : Nat) (location : String)
  | html (status : Nat) (page : Page)
  | forbidden
deriving DecidableEq, Repr

/-- Embedding of the `GET /:key{[0-9a-z]{6}}` handler: read the key from the
store; on `null` redirect (302) to `/`, otherwise redirect (302) to the stored
URL.  The request starts with an empty operation trace. -/
def getKeyRoute (store : Store) (key : String) : Response × KVState :=
  let kv0 : KVState := ⟨store, []⟩
  match kvGet kv0 key with
  | (none, kv1) => (Response.redirect 302 "/", kv1)
  | (some u, kv1) => (Response.redirect 302 u, kv1)

/-- Embedding of Variant A's `createKey`: draw a UUID, take its first 6
characters, read the store; if the result is falsy, persist `key -> url`;
otherwise recurse — but, as in the source, return the OUTER `key` regardless
of what the recursive call produced.  The list `draws` supplies the successive
random 128-bit values; exhausting it models a non-terminating retry loop. -/
def createKey (kv : KVState) (url : String) : List Nat → Option (String × KVState)
  | [] => none
  | r :: rest =>
    let key := candidateKey r
    match kvGet kv key with
    | (result, kv1) =>
      if falsy result then
        some (key, kvPut kv1 key url)
      else
        match createKey kv1 url rest with
        | none => none
        | some (_, kv2) => some (key, kv2)

/-- Embedding of Variant A's `POST /create` route: `csrf()` middleware first
(its origin check abstracted to the boolean `csrfOk`), then the zod form
validator (abstracted to the predicate `validUrl` applied to the `url` field),
then the creation handler, which renders the short URL built from the request
origin and the key returned by `createKey`. -/
def postCreateA (validUrl : String → Bool) (csrfOk : Bool) (store : Store)
    (draws : List Nat) (url origin : String) : Option (Response × KVState) :=
  let kv0 : KVState := ⟨store, []⟩
  if csrfOk = false then
    some (Response.forbidden, kv0)
  else if validUrl url = false then
    some (Response.html 200 Page.errorPage, kv0)
  else
    match createKey kv0 url draws with
    | none => none
    | some (key, kv1) =>
      some (Response.html 200 (Page.created (origin ++ "/" ++ key)), kv1)

/-- Embedding of Variant B's `POST /create` route (tutorial text): validator,
then `let key = await KV.get(url)`; if that is falsy, set `key` to the first 6
characters of a fresh UUID and persist `key -> url`; render the short URL.
The route has no CSRF middleware and never reads the `Origin`/`Referer`
headers, which are therefore ignored parameters. -/
def postCreateB (validUrl : String → Bool) (store : Store) (draw : Nat)
    (url origin _originHeader _refererHeader : String) : Response × KVState :=
  let kv0 : KVState := ⟨store, []⟩
  if validUrl url = false then
    (Response.html 200 Page.errorPage, kv0)
  else
    match kvGet kv0 url with
    | (found, kv1) =>
      if falsy found then
        let key := candidateKey draw
        (Response.html 200 (Page.created (origin ++ "/" ++ key)), kvPut kv1 key url)
      else
        (Response.html 200 (Page.created (origin ++ "/" ++ found.getD "")), kv1)

/-! Helper lemmas about the store. -/

/-- Reading back the key just written returns the written value. -/
theorem storeLookup_storePut_self (s : Store) (k v : String) :
    storeLookup (storePut s k v) k = some v := by
  induction s with
  | nil => simp [storePut, storeLookup]
  | cons hd tl ih =>
    obtain ⟨a, b⟩ := hd
    by_cases h : a = k
    · simp [storePut, storeLookup, h]
    · simp [storePut, storeLookup, h, ih]

/-- Writing one key leaves every other key unchanged. -/
theorem storeLookup_storePut_ne (s : Store) (k k' v : String) (h : k' ≠ k) :
    storeLookup (storePut s k v) k' = storeLookup s k' := by
  induction s with
  | nil => simp [storePut, storeLookup, Ne.symm h]
  | cons hd tl ih =>
    obtain ⟨a, b⟩ := hd
    by_cases hk : a = k
    · subst hk
      simp [storePut, storeLookup, Ne.symm h]
    · simp only [storePut, if_neg hk, storeLookup]
      by_cases hk' : a = k'
      · simp [hk']
      · simp [hk', ih]

/-- A lookup hitting no key of the list returns `none`. -/
theorem storeLookup_eq_none (s : Store) (key : String)
    (h : ∀ p ∈ s, p.1 ≠ key) : storeLookup s key = none := by
  induction s with
  | nil => rfl
  | cons hd tl ih =>
    obtain ⟨a, b⟩ := hd
    have ha : a ≠ key := h (a, b) (List.mem_cons_self _ _)
    simp only [storeLookup, if_neg ha]
    exact ih fun p hp => h p (List.mem_cons_of_mem _ hp)

/-! Helper lemmas about the hexadecimal key shape. -/

/-- The accumulator variant adds exactly `w` digits in front of `acc`. -/
theorem hexDigitsAux_length (w : Nat) :
    ∀ n acc, (hexDigitsAux w n acc).length = w + acc.length := by
  induction w with
  | zero => intro n acc; simp [hexDigitsAux]
  | succ w ih =>
    intro n acc
    rw [hexDigitsAux, ih]
    simp
    omega

/-- The fixed-width digit list has exactly the requested width. -/
theorem hexDigits_length (w : Nat) : ∀ n, (hexDigits w n).length = w := by
  intro n
  simp [hexDigits, hexDigitsAux_length]

/-- Every character produced by `hexChar` on a digit value below 16 is a
lower-case hexadecimal character. -/
theorem hexChar_isHexLower (d : Nat) (h : d < 16) : isHexLowerChar (hexChar d) = true := by
  interval_cases d <;> decide

/-- Every character produced by `hexChar` on a digit value below 16 lies in the
route alphabet `[0-9a-z]`. -/
theorem hexChar_isKeyChar (d : Nat) (h : d < 16) : isKeyChar (hexChar d) = true := by
  interval_cases d <;> decide

/-- Accumulated digit lists satisfy any character predicate that holds on
`hexChar` and on the accumulator. -/
theorem hexDigitsAux_all (p : Char → Bool) (hp : ∀ d, d < 16 → p (hexChar d) = true)
    (w : Nat) : ∀ n acc, acc.all p = true → (hexDigitsAux w n acc).all p = true := by
  induction w with
  | zero => intro n acc hacc; simpa [hexDigitsAux] using hacc
  | succ w ih =>
    intro n acc hacc
    rw [hexDigitsAux]
    exact ih _ _ (by simp [hacc, hp (n % 16) (Nat.mod_lt _ (by decide))])

/-- Digit lists satisfy any character predicate that holds on `hexChar`. -/
theorem hexDigits_all (p : Char → Bool) (hp : ∀ d, d < 16 → p (hexChar d) = true)
    (w : Nat) : ∀ n, (hexDigits w n).all p = true := by
  intro n
  exact hexDigitsAux_all p hp w n [] rfl

/-- The first 6 characters of the UUID string are the 6 leading hexadecimal
digits of the 128-bit value (the first hyphen appears only at position 8). -/
theorem uuidChars_take_six (n : Nat) :
    (uuidChars n).take 6 = (hexDigits 32 (n % 2 ^ 128)).take 6 := by
  unfold uuidChars
  rw [List.take_append_of_le_length (by rw [List.length_take, hexDigits_length]; decide),
    List.take_take]
  norm_num

/-! Helper lemmas about the recursive key generator. -/

/-- Unfolding equation of `createKey` on a non-empty draw list. -/
theorem createKey_cons (kv : KVState) (url : String) (r : Nat) (rest : List Nat) :
    createKey kv url (r :: rest) =
      (if falsy (storeLookup kv.store (candidateKey r)) then
        some (candidateKey r,
          kvPut ⟨kv.store, kv.trace ++ [StoreOp.get (candidateKey r)
            (storeLookup kv.store (candidateKey r))]⟩ (candidateKey r) url)
      else
        match createKey ⟨kv.store, kv.trace ++ [StoreOp.get (candidateKey r)
            (storeLookup kv.store (candidateKey r))]⟩ url rest with
        | none => none
        | some (_, kv2) => some (candidateKey r, kv2)) := by
  simp only [createKey, kvGet]

/-- During a terminating run, every key bound to a non-empty (truthy) value
keeps that value: the generator only writes to a key whose lookup was falsy. -/
theorem createKey_preserves_truthy (draws : List Nat) :
    ∀ (kv : KVState) (url k : String) (kvf : KVState),
      createKey kv url draws = some (k, kvf) →
      ∀ key v, storeLookup kv.store key = some v → v ≠ "" →
        storeLookup kvf.store key = some v := by
  induction draws with
  | nil =>
    intro kv url k kvf h
    simp [createKey] at h
  | cons r rest ih =>
    intro kv url k kvf h key v hkey hv
    rw [createKey_cons] at h
    generalize hck : candidateKey r = ck at h
    split at h
    case isTrue hf =>
      have hne : key ≠ ck := by
        intro e
        rw [e] at hkey
        rw [hkey] at hf
        simp [falsy] at hf
        exact hv hf
      cases h
      simpa [kvPut, storeLookup_storePut_ne _ _ _ _ hne] using hkey
    case isFalse hf =>
      split at h
      case h_1 => cases h
      case h_2 k2 kv2 hrec =>
        cases h
        exact ih _ url k2 kvf hrec key v hkey hv

/-- Every terminating run of the generator leaves the submitted URL stored
under some key (the key written by the innermost successful recursive call). -/
theorem createKey_stores_url (draws : List Nat) :
    ∀ (kv : KVState) (url k : String) (kvf : KVState),
      createKey kv url draws = some (k, kvf) →
      ∃ key, storeLookup kvf.store key = some url := by
  induction draws with
  | nil =>
    intro kv url k kvf h
    simp [createKey] at h
  | cons r rest ih =>
    intro kv url k kvf h
    rw [createKey_cons] at h
    generalize hck : candidateKey r = ck at h
    split at h
    case isTrue hf =>
      cases h
      exact ⟨k, by simpa [kvPut] using storeLookup_storePut_self kv.store k url⟩
    case isFalse hf =>
      split at h
      case h_1 => cases h
      case h_2 k2 kv2 hrec =>
        cases h
        exact ih _ url k2 kvf hrec

/-- The generator succeeds on a draw list exactly when one of the drawn
candidate keys reads back falsy from the starting store (the search phase
performs no writes, so all lookups are against the starting store). -/
theorem createKey_isSome_iff (draws : List Nat) :
    ∀ (store : Store) (tr : List StoreOp) (url : String),
      (createKey ⟨store, tr⟩ url draws).isSome = true ↔
        ∃ r ∈ draws, falsy (storeLookup store (candidateKey r)) = true := by
  induction draws with
  | nil =>
    intro store tr url
    simp [createKey]
  | cons r rest ih =>
    intro store tr url
    rw [createKey_cons]
    generalize hck : candidateKey r = ck
    split
    case isTrue hf =>
      simp only [Option.isSome_some, true_iff]
      exact ⟨r, List.mem_cons_self _ _, by rw [hck]; exact hf⟩
    case isFalse hf =>
      cases hrec : createKey ⟨store, tr ++ [StoreOp.get ck (storeLookup store ck)]⟩ url rest with
      | none =>
        constructor
        · intro hcontr
          simp at hcontr
        · rintro ⟨rx, hrx, hfrx⟩
          rcases List.mem_cons.mp hrx with he | hmem
          · subst he
            rw [hck] at hfrx
            exact absurd hfrx hf
          · have hsome := (ih store (tr ++ [StoreOp.get ck (storeLookup store ck)]) url).mpr
              ⟨rx, hmem, hfrx⟩
            rw [hrec] at hsome
            simp at hsome
      | some p =>
        obtain ⟨k2, kv2⟩ := p
        constructor
        · intro hy
          obtain ⟨rx, hmem, hfrx⟩ := (ih store (tr ++ [StoreOp.get ck (storeLookup store ck)]) url).mp
            (by rw [hrec]; rfl)
          exact ⟨rx, List.mem_cons_of_mem _ hmem, hfrx⟩
        · intro hy
          rfl

/-! Claim theorems. -/

/-- C5: every candidate key produced by the Key Generator is the first 6
characters of the hexadecimal string form of a random 128-bit identifier,
hence a 6-character string over the alphabet `[0-9a-f]`, and therefore
matches the route pattern `[0-9a-z]{6}`. -/
theorem candidate_key_matches_route_pattern (n : Nat) :
    candidateKey n = String.mk ((uuidString n).data.take 6)
    ∧ (candidateKey n).length = 6
    ∧ (candidateKey n).data.all isHexLowerChar = true
    ∧ matchesKeyPattern (candidateKey n) = true := by
  have hdata : (candidateKey n).data = (hexDigits 32 (n % 2 ^ 128)).take 6 := by
    show (uuidChars n).take 6 = _
    exact uuidChars_take_six n
  have hlen : (candidateKey n).length = 6 := by
    show ((uuidChars n).take 6).length = 6
    rw [uuidChars_take_six, List.length_take, hexDigits_length]
    decide
  have hhex : (candidateKey n).data.all isHexLowerChar = true := by
    rw [hdata, List.all_eq_true]
    intro c hc
    have hmem : c ∈ hexDigits 32 (n % 2 ^ 128) := List.take_subset _ _ hc
    have := List.all_eq_true.mp (hexDigits_all isHexLowerChar hexChar_isHexLower 32 (n % 2 ^ 128)) c hmem
    exact this
  refine ⟨rfl, hlen, hhex, ?_⟩
  rw [matchesKeyPattern, Bool.and_eq_true, beq_iff_eq]
  refine ⟨hlen, ?_⟩
  rw [hdata, List.all_eq_true]
  intro c hc
  have hmem : c ∈ hexDigits 32 (n % 2 ^ 128) := List.take_subset _ _ hc
  exact List.all_eq_true.mp (hexDigits_all isKeyChar hexChar_isKeyChar 32 (n % 2 ^ 128)) c hmem

/-- C3: for a key matching the route pattern, `GET /:key` issues a 302
redirect to the stored target when the store has a value for the key and a
302 redirect to `/` when it has none, and the handler never mutates the
store (its trace contains no write). -/
theorem get_key_route_redirects (store : Store) (key : String)
    (hpat : matchesKeyPattern key = true) :
    (storeLookup store key = none →
        getKeyRoute store key
          = (Response.redirect 302 "/", ⟨store, [StoreOp.get key none]⟩))
    ∧ (∀ u, storeLookup store key = some u →
        getKeyRoute store key
          = (Response.redirect 302 u, ⟨store, [StoreOp.get key (some u)]⟩))
    ∧ (getKeyRoute store key).2.store = store
    ∧ (getKeyRoute store key).2.trace.all (fun op => ! StoreOp.isPut op) = true := by
  have hkey := hpat
  refine ⟨fun hnone => ?_, fun u hsome => ?_, ?_, ?_⟩
  · simp [getKeyRoute, kvGet, hnone]
  · simp [getKeyRoute, kvGet, hsome]
  · cases hlook : storeLookup store key <;> simp [getKeyRoute, kvGet, hlook]
  · cases hlook : storeLookup store key <;> simp [getKeyRoute, kvGet, hlook, StoreOp.isPut]

/-- C3 witness at a concrete store and key. -/
theorem get_key_route_redirects_witness :
    matchesKeyPattern "abc123" = true
    ∧ ((storeLookup [("abc123", "https://example.com/page")] "abc123" = none →
          getKeyRoute [("abc123", "https://example.com/page")] "abc123"
            = (Response.redirect 302 "/", ⟨[("abc123", "https://example.com/page")],
                [StoreOp.get "abc123" none]⟩))
      ∧ (∀ u, storeLookup [("abc123", "https://example.com/page")] "abc123" = some u →
          getKeyRoute [("abc123", "https://example.com/page")] "abc123"
            = (Response.redirect 302 u, ⟨[("abc123", "https://example.com/page")],
                [StoreOp.get "abc123" (some u)]⟩))
      ∧ (getKeyRoute [("abc123", "https://example.com/page")] "abc123").2.store
          = [("abc123", "https://example.com/page")]
      ∧ (getKeyRoute [("abc123", "https://example.com/page")] "abc123").2.trace.all
          (fun op => ! StoreOp.isPut op) = true) :=
  ⟨by decide, get_key_route_redirects [("abc123", "https://example.com/page")] "abc123" (by decide)⟩

/-- C4: a `POST /create` submission (in a valid CSRF context) whose `url`
field fails validation is answered with the rendered error page, and the
request performs no store operation at all: the resulting state is the
starting store with an empty trace. -/
theorem post_create_invalid_url_skips_store (validUrl : String → Bool)
    (store : Store) (draws : List Nat) (url origin : String)
    (hinv : validUrl url = false) :
    postCreateA validUrl true store draws url origin
      = some (Response.html 200 Page.errorPage, ⟨store, []⟩) := by
  simp [postCreateA, hinv]

/-- C4 witness: a concrete non-URL submission against a concrete store. -/
theorem post_create_invalid_url_skips_store_witness :
    (fun s => s == "https://example.com/") "not-a-url" = false
    ∧ postCreateA (fun s => s == "https://example.com/") true
        [("abc123", "https://example.com/page")] [0] "not-a-url" "https://sho.example"
      = some (Response.html 200 Page.errorPage, ⟨[("abc123", "https://example.com/page")], []⟩) :=
  ⟨by decide, post_create_invalid_url_skips_store (fun s => s == "https://example.com/")
    [("abc123", "https://example.com/page")] [0] "not-a-url" "https://sho.example" (by decide)⟩

/-- C6: on `POST /create` the CSRF guard runs strictly before the form
validator: when the guard rejects, the outcome is the same for every
validator predicate, form body and draw sequence, and the resulting state is
the starting store with an empty operation trace — the validator, the
handler and the store are never reached. -/
theorem csrf_rejection_precedes_validator (validUrl : String → Bool)
    (store : Store) (draws : List Nat) (url origin : String) :
    postCreateA validUrl false store draws url origin
      = some (Response.forbidden, ⟨store, []⟩) := by
  simp [postCreateA]

/-- C1 (code bug evidence): with the store already mapping `000000` to an old
URL and random draws whose candidate keys are `000000` then `000001`, the
collision branch of `createKey` persists the submitted target under the fresh
key `000001` but returns the colliding key `000000`; the rendered short URL
therefore names `000000`, and `GET /000000` redirects to the pre-existing URL,
not to the submitted one. -/
theorem create_returns_stale_key_on_collision :
    postCreateA (fun _ => true) true [("000000", "https://old.example/")] [0, 16 ^ 26]
        "https://new.example/" "https://sho.example"
      = some (Response.html 200 (Page.created "https://sho.example/000000"),
          ⟨[("000000", "https://old.example/"), ("000001", "https://new.example/")],
           [StoreOp.get "000000" (some "https://old.example/"), StoreOp.get "000001" none,
            StoreOp.put "000001" "https://new.example/"]⟩)
    ∧ (getKeyRoute [("000000", "https://old.example/"), ("000001", "https://new.example/")]
        "000000").1 = Response.redirect 302 "https://old.example/"
    ∧ "https://old.example/" ≠ "https://new.example/" := by
  refine ⟨by decide, by decide, by decide⟩

/-- C2 counterexample: a pre-existing mapping whose stored value is the empty
string is a stored value, yet the JavaScript truthiness check `if (!result)`
treats it as free, and `createKey` overwrites it on the first draw. -/
theorem colliding_empty_value_is_overwritten :
    storeLookup [("000000", "")] (candidateKey 0) = some ""
    ∧ createKey ⟨[("000000", "")], []⟩ "https://new.example/" [0]
        = some ("000000",
            ⟨[("000000", "https://new.example/")],
             [StoreOp.get "000000" (some ""), StoreOp.put "000000" "https://new.example/"]⟩)
    ∧ storeLookup [("000000", "https://new.example/")] "000000" ≠ some "" := by
  refine ⟨by decide, by decide, by decide⟩

/-- C2 amended: when the first candidate key holds a NON-EMPTY stored value,
a terminating `createKey` run never overwrites it: the colliding key still
maps to its original value afterwards. -/
theorem colliding_truthy_mapping_unchanged (store : Store) (url v : String)
    (r : Nat) (rest : List Nat) (k : String) (kvf : KVState)
    (hcol : storeLookup store (candidateKey r) = some v) (hv : v ≠ "")
    (hrun : createKey ⟨store, []⟩ url (r :: rest) = some (k, kvf)) :
    storeLookup kvf.store (candidateKey r) = some v :=
  createKey_preserves_truthy (r :: rest) ⟨store, []⟩ url k kvf hrun (candidateKey r) v hcol hv

/-- C2 amended, witnessed at a concrete collision. -/
theorem colliding_truthy_mapping_unchanged_witness :
    storeLookup [("000000", "https://old.example/")] (candidateKey 0) = some "https://old.example/"
    ∧ "https://old.example/" ≠ ""
    ∧ createKey ⟨[("000000", "https://old.example/")], []⟩ "https://new.example/" [0, 16 ^ 26]
        = some ("000000",
            ⟨[("000000", "https://old.example/"), ("000001", "https://new.example/")],
             [StoreOp.get "000000" (some "https://old.example/"), StoreOp.get "000001" none,
              StoreOp.put "000001" "https://new.example/"]⟩)
    ∧ storeLookup [("000000", "https://old.example/"), ("000001", "https://new.example/")]
        (candidateKey 0) = some "https://old.example/" :=
  ⟨by decide, by decide, by decide,
    colliding_truthy_mapping_unchanged [("000000", "https://old.example/")]
      "https://new.example/" "https://old.example/" 0 [16 ^ 26] "000000"
      ⟨[("000000", "https://old.example/"), ("000001", "https://new.example/")],
       [StoreOp.get "000000" (some "https://old.example/"), StoreOp.get "000001" none,
        StoreOp.put "000001" "https://new.example/"]⟩
      (by decide) (by decide) (by decide)⟩

/-- C8 counterexample: a candidate key that is present in the store with the
empty string as its value is not absent, yet `createKey` terminates on it,
because the truthiness check treats the empty string as free. -/
theorem occupied_empty_value_still_terminates :
    storeLookup [("000000", "")] (candidateKey 0) = some ""
    ∧ (createKey ⟨[("000000", "")], []⟩ "https://other.example/" [0]).isSome = true := by
  refine ⟨by decide, by decide⟩

/-- C8 amended: the retry loop has no fixed bound and raises no error;
`createKey` terminates on a draw sequence exactly when some drawn candidate
key reads back falsy (absent, or mapped to the empty string), and runs
forever when every drawn candidate has a non-empty stored value. -/
theorem create_key_terminates_iff_falsy_candidate (store : Store)
    (tr : List StoreOp) (url : String) (draws : List Nat) :
    (createKey ⟨store, tr⟩ url draws).isSome = true
      ↔ ∃ r ∈ draws, falsy (storeLookup store (candidateKey r)) = true :=
  createKey_isSome_iff draws store tr url

/-- C9: every terminating `createKey` run stores the submitted URL under some
key, even when earlier candidates collided. -/
theorem create_always_stores_target (store : Store) (tr : List StoreOp)
    (url : String) (draws : List Nat) (k : String) (kvf : KVState)
    (h : createKey ⟨store, tr⟩ url draws = some (k, kvf)) :
    ∃ key, storeLookup kvf.store key = some url :=
  createKey_stores_url draws ⟨store, tr⟩ url k kvf h

/-- C9 witness on a concrete run from the empty store. -/
theorem create_always_stores_target_witness :
    createKey ⟨[], []⟩ "https://target.example/" [0]
        = some ("000000",
            ⟨[("000000", "https://target.example/")],
             [StoreOp.get "000000" none, StoreOp.put "000000" "https://target.example/"]⟩)
    ∧ ∃ key, storeLookup [("000000", "https://target.example/")] key
        = some "https://target.example/" :=
  ⟨by decide,
    create_always_stores_target [] [] "https://target.example/" [0] "000000"
      ⟨[("000000", "https://target.example/")],
       [StoreOp.get "000000" none, StoreOp.put "000000" "https://target.example/"]⟩
      (by decide)⟩

/-- C7 counterexample: from the empty store, two successive Variant B
submissions of the same target URL produce two distinct keys (`000000` and
then `000001`), because the handler persists `key -> target` yet looks the
target up as a key, so the second lookup still misses. -/
theorem same_target_twice_gets_two_keys :
    (postCreateB (fun _ => true) [] 0 "https://example.com/" "https://sho.example" "o" "r").1
      = Response.html 200 (Page.created "https://sho.example/000000")
    ∧ (postCreateB (fun _ => true)
         (postCreateB (fun _ => true) [] 0 "https://example.com/"
           "https://sho.example" "o" "r").2.store
         (16 ^ 26) "https://example.com/" "https://sho.example" "o" "r").1
      = Response.html 200 (Page.created "https://sho.example/000001")
    ∧ Response.html 200 (Page.created "https://sho.example/000000")
        ≠ Response.html 200 (Page.created "https://sho.example/000001") := by
  refine ⟨by decide, by decide, by decide⟩

/-- C7 amended: Variant B looks the submitted target up as a store key and
generates and persists a fresh key exactly when that lookup is falsy,
otherwise reusing the found value as the key with no write; since it persists
`key -> target` and not `target -> key`, a second submission of the same
target (when the target is not itself a stored key) draws and returns a fresh
independent key rather than the first one. -/
theorem variant_b_lookup_reuse_structure (validUrl : String → Bool) (store : Store)
    (draw draw2 : Nat) (url origin oh rh : String) (hv : validUrl url = true) :
    (∀ k, storeLookup store url = some k → k ≠ "" →
        postCreateB validUrl store draw url origin oh rh
          = (Response.html 200 (Page.created (origin ++ "/" ++ k)),
             ⟨store, [StoreOp.get url (some k)]⟩))
    ∧ (falsy (storeLookup store url) = true →
        postCreateB validUrl store draw url origin oh rh
          = (Response.html 200 (Page.created (origin ++ "/" ++ candidateKey draw)),
             ⟨storePut store (candidateKey draw) url,
              [StoreOp.get url (storeLookup store url),
               StoreOp.put (candidateKey draw) url]⟩))
    ∧ (falsy (storeLookup store url) = true → url ≠ candidateKey draw →
        (postCreateB validUrl
            (postCreateB validUrl store draw url origin oh rh).2.store
            draw2 url origin oh rh).1
          = Response.html 200 (Page.created (origin ++ "/" ++ candidateKey draw2))) := by
  refine ⟨fun k hk hkne => ?_, fun hf => ?_, fun hf hne => ?_⟩
  · have hfs : falsy (some k) = false := by
      simpa [falsy] using hkne
    simp [postCreateB, kvGet, hv, hk, hfs]
  · simp [postCreateB, kvGet, hv, hf, kvPut]
  · have hstore : (postCreateB validUrl store draw url origin oh rh).2.store
        = storePut store (candidateKey draw) url := by
      simp [postCreateB, kvGet, hv, hf, kvPut]
    rw [hstore]
    have hlook : storeLookup (storePut store (candidateKey draw) url) url
        = storeLookup store url :=
      storeLookup_storePut_ne store (candidateKey draw) url url hne
    have hf2 : falsy (storeLookup (storePut store (candidateKey draw) url) url) = true := by
      rw [hlook]; exact hf
    simp [postCreateB, kvGet, hv, hf2]

/-- C7 amended, witnessed on the reuse branch: when the target string itself
is a stored key, its value is reused as the key and nothing is written. -/
theorem variant_b_lookup_reuse_structure_witness :
    (fun s => s == "https://example.com/") "https://example.com/" = true
    ∧ storeLookup [("https://example.com/", "abc123")] "https://example.com/" = some "abc123"
    ∧ "abc123" ≠ ""
    ∧ postCreateB (fun s => s == "https://example.com/")
        [("https://example.com/", "abc123")] 0
        "https://example.com/" "https://sho.example" "o" "r"
      = (Response.html 200 (Page.created ("https://sho.example" ++ "/" ++ "abc123")),
         ⟨[("https://example.com/", "abc123")],
          [StoreOp.get "https://example.com/" (some "abc123")]⟩) :=
  ⟨by decide, by decide, by decide,
    (variant_b_lookup_reuse_structure (fun s => s == "https://example.com/")
      [("https://example.com/", "abc123")] 0 0 "https://example.com/"
      "https://sho.example" "o" "r" (by decide)).1 "abc123" (by decide) (by decide)⟩

/-- C10: the Variant B creation route applies no CSRF guard: its outcome and
store mutation are identical for any two requests differing only in their
`Origin`/`Referer` headers, and a request passing URL validation whose target
is not already a stored truthy key performs a store write.  Moreover, in any
store whose keys all match the 6-character route pattern — as is the case for
every store the application itself builds — a target containing `:` (as every
absolute URL does) is never a stored key, so such a cross-site submission
always mutates the store. -/
theorem variant_b_has_no_csrf_guard (validUrl : String → Bool) (store : Store)
    (draw : Nat) (url origin oh1 rh1 oh2 rh2 : String) :
    postCreateB validUrl store draw url origin oh1 rh1
      = postCreateB validUrl store draw url origin oh2 rh2
    ∧ (validUrl url = true → falsy (storeLookup store url) = true →
        (postCreateB validUrl store draw url origin oh1 rh1).2.trace.any StoreOp.isPut
          = true)
    ∧ ((∀ p ∈ store, matchesKeyPattern p.1 = true) → ':' ∈ url.data →
        falsy (storeLookup store url) = true) := by
  refine ⟨rfl, fun hv hf => ?_, fun hkeys hcolon => ?_⟩
  · simp [postCreateB, kvGet, hv, hf, kvPut, StoreOp.isPut]
  · have hnone : storeLookup store url = none := by
      apply storeLookup_eq_none
      intro p hp he
      have hpat := hkeys p hp
      rw [he] at hpat
      rw [matchesKeyPattern, Bool.and_eq_true] at hpat
      have hall := List.all_eq_true.mp hpat.2 ':' hcolon
      exact absurd hall (by decide)
    rw [hnone]
    rfl

/-- C10 witness: a concrete cross-site submission (evil `Origin`/`Referer`)
behaves exactly like the same-site one and performs a store write. -/
theorem variant_b_has_no_csrf_guard_witness :
    (fun s => s == "https://example.com/") "https://example.com/" = true
    ∧ falsy (storeLookup [("aaaaaa", "https://a.example/")] "https://example.com/") = true
    ∧ postCreateB (fun s => s == "https://example.com/") [("aaaaaa", "https://a.example/")] 0
        "https://example.com/" "https://sho.example" "https://evil.example" "https://evil.example/form"
      = postCreateB (fun s => s == "https://example.com/") [("aaaaaa", "https://a.example/")] 0
        "https://example.com/" "https://sho.example" "https://sho.example" "https://sho.example/"
    ∧ (postCreateB (fun s => s == "https://example.com/") [("aaaaaa", "https://a.example/")] 0
        "https://example.com/" "https://sho.example" "https://evil.example"
        "https://evil.example/form").2.trace.any StoreOp.isPut = true :=
  ⟨by decide, by decide,
    (variant_b_has_no_csrf_guard (fun s => s == "https://example.com/")
      [("aaaaaa", "https://a.example/")] 0 "https://example.com/" "https://sho.example"
      "https://evil.example" "https://evil.example/form"
      "https://sho.example" "https://sho.example/").1,
    (variant_b_has_no_csrf_guard (fun s => s == "https://example.com/")
      [("aaaaaa", "https://a.example/")] 0 "https://example.com/" "https://sho.example"
      "https://evil.example" "https://evil.example/form"
      "https://sho.example" "https://sho.example/").2.1 (by decide) (by decide)⟩

end UrlShortener
